import Mathlib

/-!
Verification development for the comexchat repository.

The repository has two source files:

* `comexstat.py` — a Remote Data Client exposing four stateless operations
  (`dados_gerais`, `dados_municipio`, `fetch_auxiliary_table`,
  `fetch_single_item_detail`) over the ComexStat REST API.
* `agent.py` — the orchestration loop (`should_continue`, `run_agent_async`)
  driving a reasoning engine and the tools to convergence.

We shallowly embed the decision-relevant parts of both files: Python values
are modelled by a JSON-like inductive type with Python truthiness, dictionary
`.get` access with `AttributeError` semantics is explicit, and each HTTP call
is abstracted by the observable outcome of the transport
(`HttpResult`: transport error, or a status code together with a JSON or
non-JSON body).
-/

/-- A JSON-like value, also standing for the Python values the code
manipulates.  `Json.null` doubles as Python `None`. -/
inductive Json where
  | null : Json
  | bool (b : Bool) : Json
  | num (n : Int) : Json
  | str (s : String) : Json
  | arr (elems : List Json) : Json
  | obj (fields : List (String × Json)) : Json
deriving Repr

/-- Python truthiness of a value (`if data:`). -/
def Json.truthy : Json → Bool
  | .null => false
  | .bool b => b
  | .num n => n != 0
  | .str s => !s.isEmpty
  | .arr elems => !elems.isEmpty
  | .obj fields => !fields.isEmpty

/-- Test for `Json.null` (Python `None`). -/
def Json.isNull : Json → Bool
  | .null => true
  | _ => false

/-- The one Python exception class our embedding needs: `dict.get` applied to
a non-dictionary raises `AttributeError`. -/
inductive PyErr where
  | attributeError : PyErr
deriving Repr, DecidableEq

/-- Python `x.get(k)`: only a dictionary has `.get`; a missing key yields
`None`.  On any non-dictionary the attribute lookup raises. -/
def pyGet (x : Json) (k : String) : Except PyErr Json :=
  match x with
  | .obj fields => .ok ((List.lookup k fields).getD .null)
  | _ => .error .attributeError

/-- Python `x.get(k, d)` with an explicit default. -/
def pyGetD (x : Json) (k : String) (d : Json) : Except PyErr Json :=
  match x with
  | .obj fields => .ok ((List.lookup k fields).getD d)
  | _ => .error .attributeError

/-- The observable outcome of one HTTP request: the transport layer failed
(`httpx.RequestError`), or a response arrived with a status code and a body
that either parses as JSON or does not. -/
inductive HttpBody where
  | json (j : Json) : HttpBody
  | nonJson : HttpBody
deriving Repr

inductive HttpResult where
  | transportError : HttpResult
  | response (code : Nat) (body : HttpBody) : HttpResult
deriving Repr

/-- `httpx.Response.raise_for_status` raises `HTTPStatusError` exactly for
4xx/5xx status codes. -/
def isHttpError (code : Nat) : Bool := 400 ≤ code

/-! Part: comexstat.py: `_fetch_comexstat_data` (lines 14–44)

POSTs the payload and returns the parsed JSON body, or `None` (our
`Json.null`) when the transport fails, the status is an error, or the body is
not JSON — every exception class is caught and converted to `None`. -/

def fetch_comexstat_data (r : HttpResult) : Json :=
  match r with
  | .transportError => .null
  | .response code body =>
    if isHttpError code then .null
    else
      match body with
      | .json j => j
      | .nonJson => .null

/-! Part: comexstat.py: payload construction in `dados_gerais` (lines 116–127)
and `dados_municipio` (lines 199–211)

Both tools rebuild `details` with `[d for d in (details or []) if d != 'year']`
and then assemble the request payload.  The `filters` argument is placed in
the payload unchanged. -/

/-- One entry of the `filters` argument: a dictionary
`{"filter": ..., "values": [...]}`. -/
structure FilterSpec where
  filter : String
  values : List Json
deriving Repr

/-- The JSON body POSTed by the two statistics tools. -/
structure StatPayload where
  flow : String
  monthDetail : Bool
  period : List (String × String)
  filters : Option (List FilterSpec)
  details : List String
  metrics : List String
deriving Repr

def dados_gerais_payload (flow : String := "import") (monthDetail : Bool := false)
    (period : List (String × String) := [("from", "2024-01"), ("to", "2024-12")])
    (filters : Option (List FilterSpec) := none)
    (details : Option (List String) := none)
    (metrics : Option (List String) := none) : StatPayload :=
  let details := (details.getD []).filter (fun d => d ≠ "year")
  { flow := flow, monthDetail := monthDetail, period := period,
    filters := filters, details := details, metrics := metrics.getD [] }

def dados_municipio_payload (flow : String := "export") (monthDetail : Bool := false)
    (period : List (String × String) := [("from", "2024-01"), ("to", "2024-12")])
    (filters : Option (List FilterSpec) := none)
    (details : Option (List String) := none)
    (metrics : Option (List String) := none) : StatPayload :=
  let details := (details.getD []).filter (fun d => d ≠ "year")
  { flow := flow, monthDetail := monthDetail, period := period,
    filters := filters, details := details, metrics := metrics.getD [] }

/-- Does the transmitted payload's detail list contain a `"year"` entry? -/
def StatPayload.detailsHasYear (p : StatPayload) : Bool :=
  p.details.contains "year"

/-- Does the transmitted payload's filter list contain an entry whose
`"filter"` key is `"year"`? -/
def StatPayload.filtersHasYear (p : StatPayload) : Bool :=
  (p.filters.getD []).any (fun f => f.filter == "year")

/-! Part: comexstat.py: result extraction in `dados_gerais` (lines 137–145) and
`dados_municipio` (lines 222–232)

`data = await _fetch_comexstat_data(...)`, then
`if data: return data.get("data", {}).get("list") else: return None`.
The extraction happens OUTSIDE any `try` block, so an `AttributeError`
raised by `.get` propagates to the caller; we surface that with `Except`. -/

def dados_gerais_result (r : HttpResult) : Except PyErr Json :=
  let data := fetch_comexstat_data r
  if data.truthy then do
    let inner ← pyGetD data "data" (.obj [])
    pyGet inner "list"
  else
    .ok .null

def dados_municipio_result (r : HttpResult) : Except PyErr Json :=
  let data := fetch_comexstat_data r
  if data.truthy then do
    let inner ← pyGetD data "data" (.obj [])
    pyGet inner "list"
  else
    .ok .null

/-! Part: comexstat.py: `fetch_auxiliary_table` (lines 272–359)

Query-string construction (lines 320–338): `add`, `language` and `search` are
forwarded when the table is in `params_all ∪ params_limited`; `page` and
`perPage` when it is in `params_all`; otherwise each supplied option is
silently dropped.  The GET and the extraction
`data.get("data").get("list")` both happen inside the `try`, so here the
`AttributeError` is caught and becomes `None`. -/

inductive QueryVal where
  | str (s : String) : QueryVal
  | int (n : Int) : QueryVal
deriving Repr, DecidableEq

def params_all : List String :=
  ["product-categories", "ncm", "hs", "nbm", "classifications"]

def params_limited : List String := ["economic-blocks"]

def fetch_auxiliary_table_params (table_name : String)
    (add : Option String := none) (language : Option String := none)
    (page : Option Int := none) (perPage : Option Int := none)
    (search : Option String := none) : List (String × QueryVal) :=
  let qp : List (String × QueryVal) := []
  let qp :=
    if params_all.contains table_name || params_limited.contains table_name then
      qp ++ (match add with | some a => [("add", QueryVal.str a)] | none => [])
         ++ (match language with | some l => [("language", QueryVal.str l)] | none => [])
         ++ (match search with | some s => [("search", QueryVal.str s)] | none => [])
    else qp
  let qp :=
    if params_all.contains table_name then
      qp ++ (match page with | some p => [("page", QueryVal.int p)] | none => [])
         ++ (match perPage with | some pp => [("perPage", QueryVal.int pp)] | none => [])
    else qp
  qp

/-- Is a parameter with key `k` present in the transmitted query string? -/
def hasParam (qp : List (String × QueryVal)) (k : String) : Bool :=
  qp.any (fun p => p.1 == k)

def fetch_auxiliary_table_result (r : HttpResult) : Json :=
  match r with
  | .transportError => .null
  | .response code body =>
    if isHttpError code then .null
    else
      match body with
      | .nonJson => .null
      | .json data =>
        match (do
            let inner ← pyGet data "data"
            pyGet inner "list" : Except PyErr Json) with
        | .ok j => j
        | .error _ => .null

/-! Part: comexstat.py: `fetch_single_item_detail` (lines 363–430)

Everything is inside the `try`: a 404 is logged as "not found", any other
4xx/5xx as an HTTP error, a transport failure and any other exception each in
their own branch, and in every failure case the function returns `None`.  On
a JSON body, `item_data` is `data['data']` when that key holds a dictionary,
else the whole body when it is a dictionary, else `None`; a falsy `item_data`
is reported as an extraction failure. -/

/-- Which log branch of `fetch_single_item_detail` ran, mirroring the
distinct `print` calls of the source. -/
inductive DetailLog where
  | success : DetailLog
  | notFound : DetailLog
  | httpError (code : Nat) : DetailLog
  | transportError : DetailLog
  | unexpected : DetailLog
  | extractFailed : DetailLog
deriving Repr, DecidableEq

def fetch_single_item_detail (r : HttpResult) : Json × DetailLog :=
  match r with
  | .transportError => (.null, .transportError)
  | .response code body =>
    if isHttpError code then
      if code == 404 then (.null, .notFound) else (.null, .httpError code)
    else
      match body with
      | .nonJson => (.null, .unexpected)
      | .json data =>
        let item_data : Json :=
          match data with
          | .obj fields =>
            match List.lookup "data" fields with
            | some (.obj inner) => .obj inner
            | _ => .obj fields
          | _ => .null
        if item_data.truthy then (item_data, .success)
        else (.null, .extractFailed)

/-- A fetch outcome in one of the three failure classes named by the spec:
transport error, HTTP error status, or a body that is not JSON. -/
def isFetchFailure (r : HttpResult) : Bool :=
  match r with
  | .transportError => true
  | .response code body =>
    isHttpError code ||
      (match body with | .nonJson => true | .json _ => false)

/-! Part: agent.py: messages and `should_continue` (lines 109–128)

The state is an accumulating list of messages.  `should_continue` returns
`"end"` when the list is empty, when the last message is not an `AIMessage`,
or when the last `AIMessage` carries no tool calls; otherwise `"continue"`. -/

/-- A tool call requested by an assistant message: the `name` and the
rendered `args` of the langchain tool-call dictionary. -/
structure ToolCall where
  name : String
  args : String
deriving Repr, DecidableEq

/-- The message kinds flowing through the agent state: `human` the user
query, `ai` an assistant message with its tool-call batch, `tool` a
`ToolMessage` carrying the originating tool's name, its content and whether
its `status` attribute is `'error'`. -/
inductive Msg where
  | human (content : String) : Msg
  | ai (content : String) (tool_calls : List ToolCall) : Msg
  | tool (name : String) (content : String) (isError : Bool) : Msg
deriving Repr, DecidableEq

def should_continue (messages : List Msg) : String :=
  match messages.getLast? with
  | none => "end"
  | some (.ai _ tool_calls) => if tool_calls.isEmpty then "end" else "continue"
  | some _ => "end"

/-! Part: agent.py: result extraction in `run_agent_async` (lines 253–309)

After `ainvoke` returns the final state, the code
(1) walks every message collecting a formatted line per tool call of every
`AIMessage` (lines 260–267), and
(2) inspects the final message: a tool-call-free `AIMessage` with non-blank
stripped content becomes the answer, to which the collected tool-call lines
are appended (lines 299–304); the remaining shapes each produce a fixed
notice string. -/

/-- Python `str.strip()` (line 273: `str(last_ai_message.content or "").strip()`):
remove leading and trailing whitespace. -/
def pystrip (s : String) : String :=
  String.mk ((s.data.dropWhile Char.isWhitespace).reverse.dropWhile Char.isWhitespace).reverse

def formatToolCall (tc : ToolCall) : String :=
  "* **Tool:** `" ++ tc.name ++ "`\n* **Arguments:** `" ++ tc.args ++ "`"

/-- The body of the `for message in messages` loop of lines 261–267: append
one formatted line per tool call of an assistant message. -/
def collectStep (acc : List String) (m : Msg) : List String :=
  match m with
  | .ai _ tool_calls =>
    if tool_calls.isEmpty then acc else acc ++ tool_calls.map formatToolCall
  | _ => acc

/-- The `for message in messages` loop of lines 261–267, as the source's
left-to-right accumulation. -/
def collect_tool_calls_info (messages : List Msg) : List String :=
  messages.foldl collectStep []

/-- Every tool call ever requested by any assistant message, in emission
order (the spec's audit-trail of the whole Conversation). -/
def all_tool_calls (messages : List Msg) : List ToolCall :=
  (messages.map (fun m => match m with | .ai _ tool_calls => tool_calls | _ => [])).flatten

def extract_agent_result (messages : List Msg) : String :=
  let tool_calls_info := collect_tool_calls_info messages
  match messages.getLast? with
  | some (.ai content tool_calls) =>
    if tool_calls.isEmpty then
      let c := pystrip content
      if c.isEmpty then "Agent finished, but the final message was empty."
      else
        c ++ (if tool_calls_info.isEmpty then ""
              else "\n\n---\n**Tools Used:**\n" ++ String.intercalate "\n\n" tool_calls_info)
    else "Agent finished unexpectedly while planning to use tools."
  | some (.tool name content isError) =>
    if isError then
      "An error occurred during tool execution: Tool '" ++ name ++ "' failed: " ++ content
    else
      "Agent finished after using tool '" ++ name ++ "', but didn't provide a final summary."
  | _ => "Agent finished, but the final state is unexpected."

/-! Part: agent.py: the compiled graph (lines 217–227)

Entry point `agent` (the model call appends one `AIMessage`), conditional
edge `should_continue` to either `action` or `END`, and `action` (the
`ToolNode` appends one `ToolMessage` per requested call) looping back to
`agent`.  The source has no iteration cap, so we model the run with explicit
fuel: `none` means the loop was still running when the fuel ran out. -/

/-- One engine decision: the content and tool-call batch of the next
assistant message, as a function of the conversation so far. -/
def EngineFn : Type := List Msg → String × List ToolCall

/-- One tool execution: content and error status of the resulting
`ToolMessage`. -/
def ExecFn : Type := ToolCall → String × Bool

def run_agent_loop (engine : EngineFn) (execTool : ExecFn) :
    Nat → List Msg → Option (List Msg)
  | 0, _ => none
  | fuel + 1, messages =>
    let d := engine messages
    let response := Msg.ai d.1 d.2
    let messages := messages ++ [response]
    if should_continue messages = "continue" then
      let results := d.2.map (fun tc =>
        let r := execTool tc
        Msg.tool tc.name r.1 r.2)
      run_agent_loop engine execTool fuel (messages ++ results)
    else
      some messages

/-- An engine that requests a tool call on every turn. -/
def alwaysToolEngine : EngineFn :=
  fun _ => ("", [{ name := "dados_gerais", args := "\x7b\x7d" }])

/-! Part: theorems.  Each claim of the specification gets one theorem below,
preceded by a doc comment naming the claim. -/

/-- C1 counterexample: with input `filters=[{"filter": "year", "values": []}]`
and `details=["year", "country"]`, the payload transmitted by both statistics
tools still contains a `"year"` entry in its filter list — only the detail
list is stripped — so the claim that any `"year"` entry in details or filters
is removed is false. -/
theorem c1_counterexample :
    (dados_gerais_payload "import" false [("from", "2024-01"), ("to", "2024-12")]
        (some [{ filter := "year", values := [] }]) (some ["year", "country"])
        none).filtersHasYear = true ∧
    (dados_municipio_payload "export" false [("from", "2024-01"), ("to", "2024-12")]
        (some [{ filter := "year", values := [] }]) (some ["year", "country"])
        none).filtersHasYear = true := by
  constructor <;> rfl

/-- C1 (amended): for both statistics-query operations, every `"year"` entry
is removed from the `details` list before the payload is built (and
`details=["year", "country"]` is transmitted as `details=["country"]`), but
the `filters` list is placed in the payload unchanged, so a `"year"` filter
entry is transmitted as supplied. -/
theorem c1_year_stripped_from_details_only (flow : String) (monthDetail : Bool)
    (period : List (String × String)) (filters : Option (List FilterSpec))
    (details : Option (List String)) (metrics : Option (List String)) :
    (dados_gerais_payload flow monthDetail period filters details metrics).detailsHasYear
        = false ∧
    (dados_gerais_payload flow monthDetail period filters details metrics).filters
        = filters ∧
    (dados_municipio_payload flow monthDetail period filters details metrics).detailsHasYear
        = false ∧
    (dados_municipio_payload flow monthDetail period filters details metrics).filters
        = filters ∧
    (dados_gerais_payload "import" false [] none (some ["year", "country"]) none).details
        = ["country"] := by
  refine ⟨?_, rfl, ?_, rfl, rfl⟩ <;>
    simp [dados_gerais_payload, dados_municipio_payload, StatPayload.detailsHasYear,
      List.elem_eq_mem, List.mem_filter]

/-- C5: `fetch_single_item_detail` converts an HTTP 404 into the
null-equivalent "not found" result without raising, and its log branch is the
dedicated not-found branch, distinct from the branch taken for other HTTP
errors (here 500) and from the transport-failure branch. -/
theorem c5_single_item_404_not_found (body : HttpBody) :
    fetch_single_item_detail (HttpResult.response 404 body)
        = (Json.null, DetailLog.notFound) ∧
    fetch_single_item_detail (HttpResult.response 500 body)
        = (Json.null, DetailLog.httpError 500) ∧
    DetailLog.notFound ≠ DetailLog.httpError 500 ∧
    DetailLog.notFound ≠ DetailLog.transportError := by
  exact ⟨rfl, rfl, by decide, by decide⟩

/-- C6: an optional parameter of `fetch_auxiliary_table` is forwarded in the
query string exactly when it is supplied and the table supports it:
`add`/`language`/`search` for the tables in `params_all ∪ params_limited`,
`page`/`perPage` for the tables in `params_all`; for a table in neither set
the transmitted query string is empty, whatever options were supplied, and no
error is raised (the function is total). -/
theorem c6_aux_table_param_forwarding (table_name : String)
    (add language : Option String) (page perPage : Option Int)
    (search : Option String) :
    hasParam (fetch_auxiliary_table_params table_name add language page perPage search) "add"
      = (add.isSome && (params_all.contains table_name || params_limited.contains table_name)) ∧
    hasParam (fetch_auxiliary_table_params table_name add language page perPage search) "language"
      = (language.isSome && (params_all.contains table_name || params_limited.contains table_name)) ∧
    hasParam (fetch_auxiliary_table_params table_name add language page perPage search) "search"
      = (search.isSome && (params_all.contains table_name || params_limited.contains table_name)) ∧
    hasParam (fetch_auxiliary_table_params table_name add language page perPage search) "page"
      = (page.isSome && params_all.contains table_name) ∧
    hasParam (fetch_auxiliary_table_params table_name add language page perPage search) "perPage"
      = (perPage.isSome && params_all.contains table_name) ∧
    ((params_all.contains table_name || params_limited.contains table_name) = false →
      fetch_auxiliary_table_params table_name add language page perPage search = []) := by
  cases hca : params_all.contains table_name <;>
    cases hcl : params_limited.contains table_name <;>
      cases add <;> cases language <;> cases search <;> cases page <;> cases perPage <;>
        simp_all [fetch_auxiliary_table_params, hasParam]

/-- C6 witness: for the unsupported table `"countries"`, every supplied
optional parameter is dropped and the query string is empty. -/
theorem c6_witness :
    fetch_auxiliary_table_params "countries" (some "x") (some "pt") (some 1) (some 2)
      (some "Argentina") = [] :=
  (c6_aux_table_param_forwarding "countries" (some "x") (some "pt") (some 1) (some 2)
      (some "Argentina")).2.2.2.2.2 (by decide)

/-- C4: on any transport error, HTTP error status, or non-JSON body, every
Remote Data Client operation returns the uniform no-data signal (`None`):
the helper returns `None`, the two statistics tools return `Except.ok` of
`None` (no exception escapes), the auxiliary-table lookup returns `None`,
and the single-item lookup's value component is `None`. -/
theorem c4_uniform_no_data_on_failure (r : HttpResult)
    (h : isFetchFailure r = true) :
    fetch_comexstat_data r = Json.null ∧
    dados_gerais_result r = Except.ok Json.null ∧
    dados_municipio_result r = Except.ok Json.null ∧
    fetch_auxiliary_table_result r = Json.null ∧
    (fetch_single_item_detail r).1 = Json.null := by
  cases r with
  | transportError => exact ⟨rfl, rfl, rfl, rfl, rfl⟩
  | response code body =>
    cases hc : isHttpError code with
    | true =>
      refine ⟨?_, ?_, ?_, ?_, ?_⟩ <;>
        simp [fetch_comexstat_data, dados_gerais_result, dados_municipio_result,
          fetch_auxiliary_table_result, fetch_single_item_detail, hc, Json.truthy]
      split <;> rfl
    | false =>
      cases body with
      | json j => simp [isFetchFailure, hc] at h
      | nonJson =>
        refine ⟨?_, ?_, ?_, ?_, ?_⟩ <;>
          simp [fetch_comexstat_data, dados_gerais_result, dados_municipio_result,
            fetch_auxiliary_table_result, fetch_single_item_detail, hc, Json.truthy]

/-- C4 witness: a transport error makes every operation return the no-data
signal. -/
theorem c4_witness :
    fetch_comexstat_data HttpResult.transportError = Json.null ∧
    dados_gerais_result HttpResult.transportError = Except.ok Json.null ∧
    dados_municipio_result HttpResult.transportError = Except.ok Json.null ∧
    fetch_auxiliary_table_result HttpResult.transportError = Json.null ∧
    (fetch_single_item_detail HttpResult.transportError).1 = Json.null :=
  c4_uniform_no_data_on_failure HttpResult.transportError rfl

/-- Bodies on which the unguarded extraction
`data.get("data", \x7b\x7d).get("list")` of the statistics tools yields
`None` without raising: a falsy body, or a dictionary whose `"data"` entry is
absent or is itself a dictionary without a meaningful `"list"` entry. -/
def dadosNullShape : Json → Bool
  | .null => true
  | .bool b => !b
  | .num n => n == 0
  | .str s => s.isEmpty
  | .arr elems => elems.isEmpty
  | .obj fields =>
    if fields.isEmpty then true
    else
      match List.lookup "data" fields with
      | none => true
      | some (.obj inner) => ((List.lookup "list" inner).getD .null).isNull
      | some _ => false


/-- Bodies lacking the nested dictionary-`"data"`-with-`"list"` structure
that `fetch_auxiliary_table` extracts. -/
def lacksDataList : Json → Bool
  | .obj fields =>
    match List.lookup "data" fields with
    | some (.obj inner) => ((List.lookup "list" inner).getD .null).isNull
    | _ => true
  | _ => true

/-- C10 counterexample: the 2xx JSON body `\x7b"data": null\x7d` is truthy
and lacks the nested data-to-list structure, yet `dados_gerais` does not
return `None`: the unguarded `.get("list")` on `None` raises an
`AttributeError` that propagates to the caller. -/
theorem c10_counterexample :
    dados_gerais_result
        (HttpResult.response 200 (HttpBody.json (Json.obj [("data", Json.null)])))
      = Except.error PyErr.attributeError ∧
    lacksDataList (Json.obj [("data", Json.null)]) = true := by
  exact ⟨rfl, rfl⟩

/-- Python bind on `Except`: feeding a success into the next step. -/
theorem exceptOkBind {a b : Type} (x : a) (f : a → Except PyErr b) :
    (Except.ok x >>= f : Except PyErr b) = f x := rfl


/-- On a truthy `dadosNullShape` body, the unguarded extraction chain of the
statistics tools succeeds with `None`. -/
theorem dados_extract_null (body : Json) (htruthy : body.truthy = true)
    (hshape : dadosNullShape body = true) :
    (do
      let inner ← pyGetD body "data" (.obj [])
      pyGet inner "list" : Except PyErr Json) = Except.ok Json.null := by
  cases body with
  | obj fields =>
    simp only [Json.truthy, Bool.not_eq_true'] at htruthy
    simp only [dadosNullShape, htruthy, if_false, Bool.false_eq_true] at hshape
    simp only [pyGetD, exceptOkBind]
    cases hl : List.lookup "data" fields with
    | none => simp [pyGet]
    | some v =>
      simp only [hl] at hshape
      simp only [Option.getD_some]
      cases v with
      | obj inner =>
        simp only [pyGet]
        cases hll : List.lookup "list" inner with
        | none => rfl
        | some w =>
          simp only [hll] at hshape
          cases w <;> simp_all [Json.isNull]
      | null => simp at hshape
      | bool b => simp at hshape
      | num n => simp at hshape
      | str s => simp at hshape
      | arr elems => simp at hshape
  | null => simp [Json.truthy] at htruthy
  | bool b => simp_all [Json.truthy, dadosNullShape]
  | num n => simp_all [Json.truthy, dadosNullShape]
  | str s => simp_all [Json.truthy, dadosNullShape]
  | arr elems => simp_all [Json.truthy, dadosNullShape]


/-- On a body lacking the data-to-list structure, the guarded extraction of
`fetch_auxiliary_table` ends in `None`: either the chain raises (and the
source catches it) or it returns `None` directly. -/
theorem aux_extract_null (body : Json) (hshape : lacksDataList body = true) :
    (match (do
        let inner ← pyGet body "data"
        pyGet inner "list" : Except PyErr Json) with
      | .ok j => j
      | .error _ => Json.null) = Json.null := by
  cases body with
  | obj fields =>
    simp only [lacksDataList] at hshape
    simp only [pyGet, exceptOkBind]
    cases hl : List.lookup "data" fields with
    | none => rfl
    | some v =>
      simp only [hl] at hshape
      simp only [Option.getD_some]
      cases v with
      | obj inner =>
        simp only [pyGet]
        cases hll : List.lookup "list" inner with
        | none => simp [hll]
        | some w =>
          simp only [hll] at hshape
          cases w <;> simp_all [Json.isNull]
      | null => rfl
      | bool b => rfl
      | num n => rfl
      | str s => rfl
      | arr elems => rfl
  | null => rfl
  | bool b => rfl
  | num n => rfl
  | str t => rfl
  | arr elems => rfl

/-- The duplicated result-extraction code of `dados_municipio` agrees with
that of `dados_gerais`. -/
theorem dados_municipio_eq_gerais (r : HttpResult) :
    dados_municipio_result r = dados_gerais_result r := rfl

/-- C10 (amended): for a success-status JSON response, `dados_gerais` and
`dados_municipio` return `None` when the body is falsy, or is a dictionary
whose `"data"` entry is absent or is a dictionary without a `"list"` value
(`dadosNullShape`); outside that shape — e.g. a truthy non-dictionary body,
or `"data"` mapped to a non-dictionary — an `AttributeError` propagates
instead.  `fetch_auxiliary_table` returns `None` for every body lacking the
data-to-list structure (`lacksDataList`), its `AttributeError` being raised
and caught internally — so there a shape mismatch is indistinguishable from
a transport failure at the public interface. -/
theorem c10_empty_payload_gives_none (code : Nat) (body : Json)
    (hcode : isHttpError code = false) :
    (dadosNullShape body = true →
      dados_gerais_result (HttpResult.response code (HttpBody.json body))
          = Except.ok Json.null ∧
      dados_municipio_result (HttpResult.response code (HttpBody.json body))
          = Except.ok Json.null) ∧
    (lacksDataList body = true →
      fetch_auxiliary_table_result (HttpResult.response code (HttpBody.json body))
          = Json.null) := by
  have hfetch : fetch_comexstat_data (HttpResult.response code (HttpBody.json body))
      = body := by
    simp [fetch_comexstat_data, hcode]
  constructor
  · intro hshape
    have hgoal : dados_gerais_result (HttpResult.response code (HttpBody.json body))
        = Except.ok Json.null := by
      unfold dados_gerais_result
      rw [hfetch]
      cases hb : body.truthy with
      | false => simp [hb]
      | true =>
        simp only [hb, if_true]
        exact dados_extract_null body hb hshape
    exact ⟨hgoal, (dados_municipio_eq_gerais _).trans hgoal⟩
  · intro hshape
    have haux : fetch_auxiliary_table_result (HttpResult.response code (HttpBody.json body))
        = (match (do
              let inner ← pyGet body "data"
              pyGet inner "list" : Except PyErr Json) with
            | .ok j => j
            | .error _ => Json.null) := by
      simp [fetch_auxiliary_table_result, hcode]
    rw [haux]
    exact aux_extract_null body hshape

/-- C10 witness: a 200 response whose body is `\x7b"data": \x7b\x7d\x7d`
(present `"data"` dictionary, no `"list"`) makes all three lookups return
`None`, exactly like a transport failure. -/
theorem c10_witness :
    dados_gerais_result
        (HttpResult.response 200 (HttpBody.json (Json.obj [("data", Json.obj [])])))
      = Except.ok Json.null ∧
    dados_municipio_result
        (HttpResult.response 200 (HttpBody.json (Json.obj [("data", Json.obj [])])))
      = Except.ok Json.null ∧
    fetch_auxiliary_table_result
        (HttpResult.response 200 (HttpBody.json (Json.obj [("data", Json.obj [])])))
      = Json.null := by
  have h := c10_empty_payload_gives_none 200 (Json.obj [("data", Json.obj [])]) (by decide)
  exact ⟨(h.1 (by decide)).1, (h.1 (by decide)).2, h.2 (by decide)⟩

/-- The tool-call collection loop accumulates, onto any initial accumulator,
exactly the formatted audit trail of all tool calls in emission order. -/
theorem foldl_collectStep (ms : List Msg) (acc : List String) :
    ms.foldl collectStep acc = acc ++ (all_tool_calls ms).map formatToolCall := by
  induction ms generalizing acc with
  | nil => simp [all_tool_calls]
  | cons m rest ih =>
    rw [List.foldl_cons, ih]
    cases m with
    | ai content tool_calls =>
      by_cases hemp : tool_calls.isEmpty
      · have hnil : tool_calls = [] := List.isEmpty_iff.mp hemp
        subst hnil
        simp [collectStep, all_tool_calls]
      · simp [collectStep, hemp, all_tool_calls, List.append_assoc]
    | human content => simp [collectStep, all_tool_calls]
    | tool name content isErr => simp [collectStep, all_tool_calls]

/-- The source's collection loop produces exactly the formatted audit trail
of all tool calls ever requested, in emission order. -/
theorem collect_tool_calls_info_eq (messages : List Msg) :
    collect_tool_calls_info messages = (all_tool_calls messages).map formatToolCall := by
  simpa [collect_tool_calls_info] using foldl_collectStep messages []

/-- The collected audit trail is empty exactly when no tool call was ever
requested. -/
theorem collect_tool_calls_info_isEmpty (messages : List Msg) :
    (collect_tool_calls_info messages).isEmpty = (all_tool_calls messages).isEmpty := by
  rw [collect_tool_calls_info_eq]
  cases all_tool_calls messages <;> simp

/-- C3: the loop's transition decision returns `"continue"` if and only if
the last message of the state is an assistant message carrying at least one
tool call; in every other case (no messages, non-assistant last message, or
assistant message without tool calls) it returns `"end"` — and those are the
only two outputs. -/
theorem c3_should_continue_iff (messages : List Msg) :
    (should_continue messages = "continue" ↔
      ∃ content tool_calls, messages.getLast? = some (Msg.ai content tool_calls)
        ∧ tool_calls ≠ []) ∧
    (should_continue messages = "continue" ∨ should_continue messages = "end") := by
  unfold should_continue
  cases h : messages.getLast? with
  | none => simp
  | some m =>
    cases m with
    | ai content tool_calls =>
      by_cases hemp : tool_calls.isEmpty
      · have hnil : tool_calls = [] := List.isEmpty_iff.mp hemp
        subst hnil
        simp
      · have hne : tool_calls ≠ [] := by
          intro hnil
          rw [hnil] at hemp
          simp at hemp
        rw [Bool.not_eq_true] at hemp
        simp only [hemp, Bool.false_eq_true, if_false]
        exact ⟨⟨fun _ => ⟨content, tool_calls, rfl, hne⟩, fun _ => trivial⟩, Or.inl trivial⟩
    | human content => simp
    | tool name content isErr => simp

/-- C2: when the loop ends on an assistant message with no tool calls and
non-blank stripped content, the produced outcome string is that answer
followed (when any tool was ever called) by the complete ordered audit trail
of every tool call requested by any assistant message of the whole
conversation, each formatted with its name and arguments, in emission
order. -/
theorem c2_outcome_contains_full_audit_trail (messages : List Msg)
    (content : String)
    (hlast : messages.getLast? = some (Msg.ai content []))
    (hcontent : (pystrip content).isEmpty = false) :
    extract_agent_result messages =
      pystrip content ++
        (if (all_tool_calls messages).isEmpty then ""
         else "\n\n---\n**Tools Used:**\n" ++
           String.intercalate "\n\n" ((all_tool_calls messages).map formatToolCall)) := by
  unfold extract_agent_result
  rw [hlast]
  simp only [List.isEmpty_nil, if_true, hcontent, Bool.false_eq_true, if_false,
    collect_tool_calls_info_eq, collect_tool_calls_info_isEmpty]
  cases all_tool_calls messages <;> simp

/-- C2 witness: a conversation with one earlier tool-call batch ends on a
final answer; the outcome is the answer plus the audit block listing that
call. -/
theorem c2_witness :
    extract_agent_result
        [Msg.human "pergunta",
         Msg.ai "" [{ name := "fetch_auxiliary_table", args := "table_name: countries" }],
         Msg.tool "fetch_auxiliary_table" "ok" false,
         Msg.ai "resposta" []] =
      pystrip "resposta" ++
        (if (all_tool_calls
              [Msg.human "pergunta",
               Msg.ai "" [{ name := "fetch_auxiliary_table", args := "table_name: countries" }],
               Msg.tool "fetch_auxiliary_table" "ok" false,
               Msg.ai "resposta" []]).isEmpty then ""
         else "\n\n---\n**Tools Used:**\n" ++
           String.intercalate "\n\n"
             ((all_tool_calls
               [Msg.human "pergunta",
                Msg.ai "" [{ name := "fetch_auxiliary_table", args := "table_name: countries" }],
                Msg.tool "fetch_auxiliary_table" "ok" false,
                Msg.ai "resposta" []]).map formatToolCall)) :=
  c2_outcome_contains_full_audit_trail _ "resposta" (by decide) (by decide)

/-- C7: when the conversation's terminal message is an assistant message with
no tool calls whose content strips to the empty string, the outcome is the
fixed "empty response" notice, never blank output. -/
theorem c7_empty_final_answer_notice (messages : List Msg) (content : String)
    (hlast : messages.getLast? = some (Msg.ai content []))
    (hempty : (pystrip content).isEmpty = true) :
    extract_agent_result messages
      = "Agent finished, but the final message was empty." := by
  unfold extract_agent_result
  rw [hlast]
  simp only [List.isEmpty_nil, if_true, hempty]

/-- C7 witness: a whitespace-only final assistant message produces the fixed
notice. -/
theorem c7_witness :
    extract_agent_result [Msg.ai "  " []]
      = "Agent finished, but the final message was empty." :=
  c7_empty_final_answer_notice [Msg.ai "  " []] "  " (by decide) (by decide)

/-- C8: when the conversation's last message is a `ToolMessage`, the outcome
surfaces that tool's name: with error status it is the distinct
tool-execution-failure notice carrying the tool name and the error detail,
and otherwise the finished-without-a-final-summary notice — in neither case
is an answer fabricated from earlier content. -/
theorem c8_terminal_tool_result_notice (messages : List Msg)
    (name content : String) (isErr : Bool)
    (hlast : messages.getLast? = some (Msg.tool name content isErr)) :
    extract_agent_result messages =
      if isErr then
        "An error occurred during tool execution: Tool '" ++ name
          ++ "' failed: " ++ content
      else
        "Agent finished after using tool '" ++ name
          ++ "', but didn't provide a final summary." := by
  unfold extract_agent_result
  rw [hlast]

/-- C8 witness: a terminal error-status tool result produces the distinct
failure outcome with the tool name and detail. -/
theorem c8_witness :
    extract_agent_result [Msg.tool "dados_gerais" "boom" true] =
      "An error occurred during tool execution: Tool 'dados_gerais' failed: boom" := by
  rw [c8_terminal_tool_result_notice [Msg.tool "dados_gerais" "boom" true]
        "dados_gerais" "boom" true (by decide)]
  decide

/-- C9: the orchestration loop has no iteration cap: against an engine whose
every assistant message requests a tool call, the Deciding/Executing cycle
never reaches the terminal state — for every fuel bound and every starting
conversation, the run is still unfinished. -/
theorem c9_no_iteration_cap (execTool : ExecFn) (fuel : Nat)
    (messages : List Msg) :
    run_agent_loop alwaysToolEngine execTool fuel messages = none := by
  induction fuel generalizing messages with
  | zero => rfl
  | succ n ih =>
    have hsc : should_continue
        (messages ++ [Msg.ai "" [{ name := "dados_gerais", args := "\x7b\x7d" }]])
        = "continue" := by
      unfold should_continue
      simp
    simp only [run_agent_loop, alwaysToolEngine, hsc, if_pos]
    exact ih _
